import Mathlib

/-!
Shallow embedding of the mailify email-validation core (Go package `mailify`:
`validator.go`, `servers.go`, `types.go`, `client.go`).

External effects (DNS lookups, TCP dials, the SMTP conversation) are modelled
as an explicit environment `Env` of oracles; the Go functions become pure Lean
functions over that environment.  A Go function returning `(T, error)` becomes
a Lean function returning `T × Option String` (the error text), a Go function
returning `(*T, error)` where the pointer may be `nil` only on error becomes
`Except String T`, and a Go runtime panic (nil-pointer dereference) is
modelled as `Option.none` of the whole call.
-/

namespace Mailify

/-- Embeds Go `strings.Contains`: `hasSubstr s sub` is true iff `sub` occurs
contiguously inside `s` (the empty needle always occurs). -/
def hasSubstr : List Char → List Char → Bool
  | _, [] => true
  | [], _ :: _ => false
  | c :: cs, sub => (List.isPrefixOf sub (c :: cs)) || hasSubstr cs sub

/-- Go `strings.Contains` on `String`. -/
def goContains (s sub : String) : Bool :=
  hasSubstr s.data sub.data

/-- Embeds Go `strings.Split` for a single-character separator: splits at every
occurrence of `sep`; the empty string yields one empty field. -/
def splitOnChar (sep : Char) : List Char → List (List Char)
  | [] => [[]]
  | c :: cs =>
    if c = sep then [] :: splitOnChar sep cs
    else
      match splitOnChar sep cs with
      | [] => [[c]]
      | p :: ps => (c :: p) :: ps

/-- Go `strings.Split s sep` (single-character separator) on `String`. -/
def goSplit (s : String) (sep : Char) : List String :=
  (splitOnChar sep s.data).map String.mk

/-- Embeds Go `strings.TrimSuffix`: removes one trailing occurrence of
`suf` from `s` when present. -/
def goTrimSuffix (s suf : String) : String :=
  if List.isSuffixOf suf.data s.data then
    String.mk (s.data.take (s.data.length - suf.data.length))
  else s

/-- An IP address as returned by `net.LookupIP`, abstracted to its textual
form (`String()`) and whether `To4()` is non-nil. -/
structure IP where
  str : String
  isV4 : Bool
deriving DecidableEq

/-- Go `SMTPDetails` (types.go). -/
structure SMTPDetails where
  server : String
  port : String
  protocol : String
  usedTLS : Bool
  ipAddress : String
deriving DecidableEq

/-- Go `ValidationResult` (types.go). -/
structure ValidationResult where
  isValid : Bool
  isCatchAll : Bool
  hasMX : Bool
  errorMessage : String
  smtpDetails : Option SMTPDetails
deriving DecidableEq

/-- Go `Client` (client.go). -/
structure Client where
  senderEmail : String
deriving DecidableEq

/-- The observable outcomes of one SMTP conversation attempted by
`TryConnectingSMTP` against one endpoint in one TLS mode: the dial outcome
(keyed by the dialled address string), client creation, HELO, the STARTTLS
advertisement and upgrade outcome, MAIL FROM, and the RCPT TO outcome
(`none` = accepted, `some e` = the error text returned by the server). -/
structure SmtpSession where
  dialPlain : String → Except String Unit
  dialTLS : String → Except String Unit
  newClient : Except String Unit
  hello : Except String Unit
  extSTARTTLS : Bool
  startTLS : Except String Unit
  mailFrom : Except String Unit
  rcpt : Option String

/-- The external world: DNS answers, the OS hostname, TCP reachability
(`dialTimeout addr seconds`), `net.ParseIP(x).To4() != nil`, and the SMTP
conversation an endpoint produces in a given TLS mode. -/
structure Env where
  lookupMX : String → Except String (List String)
  osHostname : Except String String
  lookupIP : String → Except String (List IP)
  lookupAddr : String → Except String (List String)
  dialTimeout : String → Nat → Bool
  ipIsV4 : String → Bool
  session : SMTPDetails → Bool → SmtpSession

/-- Embeds `Client.GetMailServers` (servers.go lines 28-55): MX lookup via the
configured resolver; on error the error is wrapped; on success the record
hosts are returned with a trailing root dot stripped — also when the record
list is empty. -/
def GetMailServers (_c : Client) (env : Env) (domain : String) :
    Except String (List String) :=
  match env.lookupMX domain with
  | .error e => .error ("error looking up MX records: " ++ e)
  | .ok mx => .ok (mx.map (fun record => goTrimSuffix record "."))

/-- The fixed candidate SMTP port order of `GetSMTPServer` (servers.go line 81). -/
def smtpPorts : List String := ["587", "25", "465"]

/-- The fixed 5-second dial timeout of `GetSMTPServer` (servers.go line 94). -/
def smtpTimeoutSeconds : Nat := 5

/-- Address formatting of servers.go lines 84-91: IPv6 addresses are wrapped
in square brackets. -/
def ipPortAddress (ip : IP) (port : String) : String :=
  if ip.isV4 then ip.str ++ ":" ++ port
  else "[" ++ ip.str ++ "]:" ++ port

/-- The inner port loop of `GetSMTPServer` (servers.go lines 82-109): first
port that dials successfully (within `smtpTimeoutSeconds`) wins. -/
def tryPortsForIP (env : Env) (mailServer : String) (ip : IP) :
    List String → Option SMTPDetails
  | [] => none
  | port :: rest =>
    if env.dialTimeout (ipPortAddress ip port) smtpTimeoutSeconds then
      some { server := mailServer, port := port, protocol := "SMTP",
             usedTLS := false, ipAddress := ip.str }
    else tryPortsForIP env mailServer ip rest

/-- The outer IP loop of `GetSMTPServer` (servers.go lines 79-110). -/
def tryEachIP (env : Env) (mailServer : String) : List IP → Option SMTPDetails
  | [] => none
  | ip :: rest =>
    match tryPortsForIP env mailServer ip smtpPorts with
    | some d => some d
    | none => tryEachIP env mailServer rest

/-- Embeds `Client.GetSMTPServer` (servers.go lines 71-112). -/
def GetSMTPServer (_c : Client) (env : Env) (mailServer : String) :
    Except String SMTPDetails :=
  match env.lookupIP mailServer with
  | .error e => .error ("failed to lookup IP for " ++ mailServer ++ ": " ++ e)
  | .ok ips =>
    match tryEachIP env mailServer ips with
    | some d => .ok d
    | none => .error ("no available SMTP servers found for " ++ mailServer)

/-- The reverse-lookup loop of `GetHostname` (validator.go lines 35-42):
first IPv4 address whose reverse lookup succeeds with at least one name
yields that name with the trailing dot removed. -/
def hostFromAddrs (env : Env) : List IP → Option String
  | [] => none
  | ip :: rest =>
    if ip.isV4 then
      match env.lookupAddr ip.str with
      | .ok (n :: _) => some (goTrimSuffix n ".")
      | _ => hostFromAddrs env rest
    else hostFromAddrs env rest

/-- Embeds `Client.GetHostname` (validator.go lines 21-45).  Mirrors the Go
`(string, error)` return: on `os.Hostname` failure the fixed placeholder
"verifier.local" is returned together with an error. -/
def GetHostname (_c : Client) (env : Env) : String × Option String :=
  match env.osHostname with
  | .error e => ("verifier.local", some ("failed to get hostname: " ++ e))
  | .ok hostname =>
    match env.lookupIP hostname with
    | .error e =>
      (hostname, some ("failed to lookup IP for hostname " ++ hostname ++ ": " ++ e))
    | .ok addrs =>
      match hostFromAddrs env addrs with
      | some name => (name, none)
      | none => (hostname ++ ".local", none)

/-- Address formatting of validator.go lines 84-92 (`net.ParseIP` + `To4`). -/
def smtpAddress (ipIsV4 : String → Bool) (d : SMTPDetails) : String :=
  if ipIsV4 d.ipAddress then d.ipAddress ++ ":" ++ d.port
  else "[" ++ d.ipAddress ++ "]:" ++ d.port

/-- The console line printed by the STARTTLS step of `TryConnectingSMTP`
(validator.go lines 127-138).  A failed upgrade is only logged; it is never
returned, so `TryConnectingSMTP` itself does not consume `sess.startTLS`. -/
def startTLSLogLine (sess : SmtpSession) (d : SMTPDetails) (useTLS : Bool) :
    Option String :=
  if d.port ≠ "465" && useTLS && sess.extSTARTTLS then
    match sess.startTLS with
    | .error e => some ("STARTTLS failed: " ++ e)
    | .ok _ => none
  else none

/-- The result value created at validator.go lines 73-76: at that point the
domain is known to have MX records, so `hasMX := true`; all other fields are
Go zero values. -/
def initialResult : ValidationResult :=
  { isValid := false, isCatchAll := false, hasMX := true,
    errorMessage := "", smtpDetails := none }

/-- Embeds `Client.TryConnectingSMTP` (validator.go lines 70-172).  The
result is initialised with `hasMX := true`; port 465 dials with implicit TLS;
a STARTTLS upgrade failure is only logged (see `startTLSLogLine`); the RCPT
outcome is classified by substring checks in the order 450 4.7.1, 550 5.1.1,
250, and any other RCPT error is returned unmodified alongside the result. -/
def TryConnectingSMTP (_c : Client) (ipIsV4 : String → Bool)
    (sess : SmtpSession) (smtpDetails : SMTPDetails)
    (_recipientEmail _localName : String) (_useTLS : Bool) :
    ValidationResult × Option String :=
  let result : ValidationResult := initialResult
  match (if smtpDetails.port = "465"
         then sess.dialTLS (smtpAddress ipIsV4 smtpDetails)
         else sess.dialPlain (smtpAddress ipIsV4 smtpDetails)) with
  | .error e => (result, some ("connection failed: " ++ e))
  | .ok _ =>
    match sess.newClient with
    | .error e => (result, some ("SMTP client creation failed: " ++ e))
    | .ok _ =>
      match sess.hello with
      | .error e => (result, some ("HELO failed: " ++ e))
      | .ok _ =>
        match sess.mailFrom with
        | .error e => (result, some ("MAIL FROM failed: " ++ e))
        | .ok _ =>
          match sess.rcpt with
          | none => ({ result with isValid := true }, none)
          | some e =>
            if goContains e "450 4.7.1" then
              ({ result with isValid := true, errorMessage := "Reverse DNS lookup required but email might be valid" }, none)
            else if goContains e "550 5.1.1" then
              ({ result with errorMessage := "User doesn't exist" }, none)
            else if goContains e "250" then
              ({ result with isValid := true, isCatchAll := true }, none)
            else (result, some e)

/-- The mail-server loop of `ValidateEmail` (validator.go lines 236-273) plus
its fall-through return (lines 269-273).  `lastErr` is the Go `lastErr`
variable; when the loop exhausts with `lastErr` still `nil`, the Go code
calls `lastErr.Error()` on a nil interface — a nil-pointer panic, modelled
here as `Option.none` of the whole call. -/
def tryServersLoop (c : Client) (env : Env) (recipientEmail localName : String) :
    List String → Option String → Option (ValidationResult × Option String)
  | [], lastErr =>
    match lastErr with
    | none => none
    | some e =>
      some ({ isValid := false, isCatchAll := false, hasMX := true,
              errorMessage := e, smtpDetails := none }, none)
  | mailServer :: rest, _lastErr =>
    match GetSMTPServer c env mailServer with
    | .error e => tryServersLoop c env recipientEmail localName rest (some e)
    | .ok smtpServer =>
      match TryConnectingSMTP c env.ipIsV4 (env.session smtpServer false)
          smtpServer recipientEmail localName false with
      | (result, none) =>
        some ({ result with smtpDetails := some smtpServer }, none)
      | (_, some _) =>
        match TryConnectingSMTP c env.ipIsV4 (env.session smtpServer true)
            smtpServer recipientEmail localName true with
        | (result, none) =>
          some ({ result with smtpDetails := some smtpServer }, none)
        | (_, some e2) =>
          tryServersLoop c env recipientEmail localName rest (some e2)

/-- Embeds `Client.ValidateEmail` (validator.go lines 195-274).  `none`
models a Go runtime panic (see `tryServersLoop`); on all non-panicking paths
the Go function returns a nil error, so the second component is the returned
error value. -/
def ValidateEmail (c : Client) (env : Env) (recipientEmail : String) :
    Option (ValidationResult × Option String) :=
  if goContains recipientEmail "@" = false then
    some ({ isValid := false, isCatchAll := false, hasMX := false,
            errorMessage := "Invalid email format", smtpDetails := none }, none)
  else if (goSplit recipientEmail '@').length ≠ 2 then
    some ({ isValid := false, isCatchAll := false, hasMX := false,
            errorMessage := "Invalid email format", smtpDetails := none }, none)
  else
    match GetMailServers c env ((goSplit recipientEmail '@').getD 1 "") with
    | .error _ =>
      some ({ isValid := false, isCatchAll := false, hasMX := false,
              errorMessage := "No MX records found", smtpDetails := none }, none)
    | .ok mailServers =>
      match GetHostname c env with
      | (_, some e) =>
        some ({ isValid := false, isCatchAll := false, hasMX := true,
                errorMessage := e, smtpDetails := none }, none)
      | (localName, none) =>
        tryServersLoop c env recipientEmail localName mailServers none

/-! ### Helper lemmas about the string primitives -/

theorem hasSubstr_singleton (l : List Char) (c : Char) :
    hasSubstr l [c] = true ↔ c ∈ l := by
  induction l with
  | nil => simp [hasSubstr]
  | cons x xs ih =>
    simp [hasSubstr, List.isPrefixOf, ih]

theorem splitOnChar_of_not_mem (c : Char) (l : List Char) (h : c ∉ l) :
    splitOnChar c l = [l] := by
  induction l with
  | nil => rfl
  | cons x xs ih =>
    simp only [List.mem_cons, not_or] at h
    rw [splitOnChar, if_neg (fun hx => h.1 hx.symm), ih h.2]

theorem goContains_at_of_split (s : String)
    (h : (goSplit s '@').length = 2) : goContains s "@" = true := by
  have hm : '@' ∈ s.data := by
    by_contra hnm
    rw [goSplit, splitOnChar_of_not_mem '@' s.data hnm] at h
    simp at h
  show hasSubstr s.data ['@'] = true
  exact (hasSubstr_singleton s.data '@').mpr hm

/-! ### Concrete fixtures used by the witness and counterexample theorems -/

/-- A concrete client. -/
def cA : Client := { senderEmail := "sender@probe.example" }

/-- A session in which every SMTP step succeeds and the recipient is
accepted. -/
def okSession : SmtpSession :=
  { dialPlain := fun _ => .ok (), dialTLS := fun _ => .ok (),
    newClient := .ok (), hello := .ok (), extSTARTTLS := false,
    startTLS := .ok (), mailFrom := .ok (), rcpt := none }

/-- A concrete endpoint on port 587. -/
def dW : SMTPDetails :=
  { server := "mx2", port := "587", protocol := "SMTP", usedTLS := false,
    ipAddress := "2.2.2.2" }

/-! ### Shape of every `TryConnectingSMTP` outcome -/

/-- Every exit path of `TryConnectingSMTP` produces one of five outcomes:
a propagated error alongside the untouched initial result, or one of the
four classified verdicts. -/
theorem tryConnectingSMTP_shape (c : Client) (ipv : String → Bool)
    (sess : SmtpSession) (d : SMTPDetails) (re ln : String) (tls : Bool) :
    (∃ e, TryConnectingSMTP c ipv sess d re ln tls = (initialResult, some e))
    ∨ TryConnectingSMTP c ipv sess d re ln tls =
        ({ initialResult with isValid := true, errorMessage := "Reverse DNS lookup required but email might be valid" }, none)
    ∨ TryConnectingSMTP c ipv sess d re ln tls =
        ({ initialResult with errorMessage := "User doesn't exist" }, none)
    ∨ TryConnectingSMTP c ipv sess d re ln tls =
        ({ initialResult with isValid := true, isCatchAll := true }, none)
    ∨ TryConnectingSMTP c ipv sess d re ln tls =
        ({ initialResult with isValid := true }, none) := by
  cases hc : (if d.port = "465" then sess.dialTLS (smtpAddress ipv d)
              else sess.dialPlain (smtpAddress ipv d)) with
  | error e => exact Or.inl ⟨"connection failed: " ++ e, by simp [TryConnectingSMTP, hc]⟩
  | ok u =>
    cases hn : sess.newClient with
    | error e => exact Or.inl ⟨"SMTP client creation failed: " ++ e, by simp [TryConnectingSMTP, hc, hn]⟩
    | ok u2 =>
      cases hh : sess.hello with
      | error e => exact Or.inl ⟨"HELO failed: " ++ e, by simp [TryConnectingSMTP, hc, hn, hh]⟩
      | ok u3 =>
        cases hm : sess.mailFrom with
        | error e => exact Or.inl ⟨"MAIL FROM failed: " ++ e, by simp [TryConnectingSMTP, hc, hn, hh, hm]⟩
        | ok u4 =>
          cases hr : sess.rcpt with
          | none =>
            exact Or.inr (Or.inr (Or.inr (Or.inr (by
              simp [TryConnectingSMTP, hc, hn, hh, hm, hr]))))
          | some e =>
            cases h450 : goContains e "450 4.7.1" with
            | true =>
              exact Or.inr (Or.inl (by
                simp [TryConnectingSMTP, hc, hn, hh, hm, hr, h450]))
            | false =>
              cases h550 : goContains e "550 5.1.1" with
              | true =>
                exact Or.inr (Or.inr (Or.inl (by
                  simp [TryConnectingSMTP, hc, hn, hh, hm, hr, h450, h550])))
              | false =>
                cases h250 : goContains e "250" with
                | true =>
                  exact Or.inr (Or.inr (Or.inr (Or.inl (by
                    simp [TryConnectingSMTP, hc, hn, hh, hm, hr, h450, h550, h250]))))
                | false =>
                  exact Or.inl ⟨e, by
                    simp [TryConnectingSMTP, hc, hn, hh, hm, hr, h450, h550, h250]⟩

/-- Field-level invariants of every `TryConnectingSMTP` outcome: the result
always carries `hasMX = true`, catch-all results are valid, and whenever an
error is returned the result is exactly the untouched initial result. -/
theorem tryConnectingSMTP_result_invariant (c : Client) (ipv : String → Bool)
    (sess : SmtpSession) (d : SMTPDetails) (re ln : String) (tls : Bool) :
    (TryConnectingSMTP c ipv sess d re ln tls).1.hasMX = true
    ∧ ((TryConnectingSMTP c ipv sess d re ln tls).1.isCatchAll = true →
        (TryConnectingSMTP c ipv sess d re ln tls).1.isValid = true)
    ∧ (∀ e, (TryConnectingSMTP c ipv sess d re ln tls).2 = some e →
        (TryConnectingSMTP c ipv sess d re ln tls).1 = initialResult) := by
  rcases tryConnectingSMTP_shape c ipv sess d re ln tls with
    ⟨e, h⟩ | h | h | h | h <;> rw [h] <;> simp [initialResult]

/-! ### Claim C2 -/

/-- Claim C2: the recipient-step outcome is classified by
`TryConnectingSMTP` by exactly these rules, in this precedence order: an
error containing "450 4.7.1" yields isValid=true with the explanatory
message; otherwise an error containing "550 5.1.1" yields isValid=false,
isCatchAll=false with the user-does-not-exist message; otherwise an error
containing "250" yields isValid=true and isCatchAll=true; no error yields
isValid=true and isCatchAll=false; any other error is propagated unmodified
alongside the untouched initial result (no verdict synthesized). -/
theorem tryConnectingSMTP_rcpt_classification (c : Client)
    (ipv : String → Bool) (sess : SmtpSession) (d : SMTPDetails)
    (re ln : String) (tls : Bool)
    (hconn : (if d.port = "465" then sess.dialTLS (smtpAddress ipv d)
              else sess.dialPlain (smtpAddress ipv d)) = Except.ok ())
    (hnc : sess.newClient = Except.ok ())
    (hhello : sess.hello = Except.ok ())
    (hmail : sess.mailFrom = Except.ok ()) :
    (∀ e, sess.rcpt = some e → goContains e "450 4.7.1" = true →
      TryConnectingSMTP c ipv sess d re ln tls =
        ({ isValid := true, isCatchAll := false, hasMX := true,
           errorMessage := "Reverse DNS lookup required but email might be valid",
           smtpDetails := none }, none))
    ∧ (∀ e, sess.rcpt = some e → goContains e "450 4.7.1" = false →
        goContains e "550 5.1.1" = true →
      TryConnectingSMTP c ipv sess d re ln tls =
        ({ isValid := false, isCatchAll := false, hasMX := true,
           errorMessage := "User doesn't exist", smtpDetails := none }, none))
    ∧ (∀ e, sess.rcpt = some e → goContains e "450 4.7.1" = false →
        goContains e "550 5.1.1" = false → goContains e "250" = true →
      TryConnectingSMTP c ipv sess d re ln tls =
        ({ isValid := true, isCatchAll := true, hasMX := true,
           errorMessage := "", smtpDetails := none }, none))
    ∧ (sess.rcpt = none →
      TryConnectingSMTP c ipv sess d re ln tls =
        ({ isValid := true, isCatchAll := false, hasMX := true,
           errorMessage := "", smtpDetails := none }, none))
    ∧ (∀ e, sess.rcpt = some e → goContains e "450 4.7.1" = false →
        goContains e "550 5.1.1" = false → goContains e "250" = false →
      TryConnectingSMTP c ipv sess d re ln tls =
        ({ isValid := false, isCatchAll := false, hasMX := true,
           errorMessage := "", smtpDetails := none }, some e)) := by
  refine ⟨?_, ?_, ?_, ?_, ?_⟩ <;> intros <;>
    simp only [TryConnectingSMTP, hconn, hnc, hhello, hmail, *] <;>
    simp [initialResult, *]

/-- Witness for claim C2: a concrete 550-rejecting session is classified as
the user-does-not-exist message with isValid=false and isCatchAll=false. -/
theorem tryConnectingSMTP_rcpt_classification_witness :
    TryConnectingSMTP cA (fun _ => true)
      { okSession with rcpt := some "550 5.1.1 User unknown" } dW
      "user@target.example" "me.local" false =
      ({ isValid := false, isCatchAll := false, hasMX := true,
         errorMessage := "User doesn't exist", smtpDetails := none }, none) :=
  (tryConnectingSMTP_rcpt_classification cA (fun _ => true)
      { okSession with rcpt := some "550 5.1.1 User unknown" } dW
      "user@target.example" "me.local" false rfl rfl rfl rfl).2.1
    "550 5.1.1 User unknown" rfl (by decide) (by decide)

/-- An environment whose MX lookup succeeds with zero records and in which
every SMTP conversation would accept the recipient. -/
def envC1 : Env :=
  { lookupMX := fun _ => .ok [],
    osHostname := .ok "probe",
    lookupIP := fun _ => .ok [],
    lookupAddr := fun _ => .error "no reverse record",
    dialTimeout := fun _ _ => false,
    ipIsV4 := fun _ => true,
    session := fun _ _ => okSession }

/-! ### Claim C10 -/

/-- Claim C10: on every exit path — connection failure, client-creation
failure, greeting failure, envelope-from failure, a propagated recipient
error, or success — `TryConnectingSMTP` returns a result initialised with
`hasMX = true` alongside any error, and on every failing path that result is
exactly the initial result, so the caller can always inspect it. -/
theorem tryConnectingSMTP_always_returns_result (c : Client)
    (ipv : String → Bool) (sess : SmtpSession) (d : SMTPDetails)
    (re ln : String) (tls : Bool) :
    (TryConnectingSMTP c ipv sess d re ln tls).1.hasMX = true
    ∧ (∀ e, (TryConnectingSMTP c ipv sess d re ln tls).2 = some e →
        (TryConnectingSMTP c ipv sess d re ln tls).1 = initialResult) :=
  ⟨(tryConnectingSMTP_result_invariant c ipv sess d re ln tls).1,
   (tryConnectingSMTP_result_invariant c ipv sess d re ln tls).2.2⟩

/-- A session whose TCP dial is refused. -/
def sessConnFail : SmtpSession :=
  { okSession with dialPlain := fun _ => .error "connection refused" }

/-- Witness for claim C10: a refused connection still yields the initial
result (with `hasMX = true`) next to the error. -/
theorem tryConnectingSMTP_always_returns_result_witness :
    (TryConnectingSMTP cA (fun _ => true) sessConnFail dW "user@target.example"
      "me.local" false).1.hasMX = true
    ∧ (TryConnectingSMTP cA (fun _ => true) sessConnFail dW "user@target.example"
        "me.local" false).1 = initialResult :=
  ⟨(tryConnectingSMTP_always_returns_result cA (fun _ => true) sessConnFail dW
      "user@target.example" "me.local" false).1,
   (tryConnectingSMTP_always_returns_result cA (fun _ => true) sessConnFail dW
      "user@target.example" "me.local" false).2
     "connection failed: connection refused" rfl⟩

/-! ### Claim C9 -/

/-- Claim C9: when the connection is not implicit TLS (port ≠ 465),
`requestTls` is true and the server advertises STARTTLS, a failed upgrade is
non-fatal: the failure is only logged, the outcome of the attempt is the
same as if the upgrade had succeeded, and the attempt proceeds to the
envelope-from and envelope-to steps (reaching a success verdict when they
succeed) instead of aborting with a handshake error. -/
theorem tryConnectingSMTP_starttls_failure_nonfatal (c : Client)
    (ipv : String → Bool) (sess : SmtpSession) (d : SMTPDetails)
    (re ln e : String)
    (hport : d.port ≠ "465")
    (hext : sess.extSTARTTLS = true)
    (hfail : sess.startTLS = Except.error e) :
    startTLSLogLine sess d true = some ("STARTTLS failed: " ++ e)
    ∧ TryConnectingSMTP c ipv sess d re ln true =
        TryConnectingSMTP c ipv { sess with startTLS := Except.ok () } d re ln true
    ∧ ((if d.port = "465" then sess.dialTLS (smtpAddress ipv d)
        else sess.dialPlain (smtpAddress ipv d)) = Except.ok () →
       sess.newClient = Except.ok () → sess.hello = Except.ok () →
       sess.mailFrom = Except.ok () → sess.rcpt = none →
       TryConnectingSMTP c ipv sess d re ln true =
         ({ initialResult with isValid := true }, none)) := by
  refine ⟨?_, rfl, ?_⟩
  · simp [startTLSLogLine, hext, hfail, hport]
  · intro h1 h2 h3 h4 h5
    simp [TryConnectingSMTP, h1, h2, h3, h4, h5]

/-- A session advertising STARTTLS whose upgrade attempt fails but whose
envelope steps succeed. -/
def sessTLSFail : SmtpSession :=
  { okSession with extSTARTTLS := true, startTLS := .error "tls handshake broke" }

/-- Witness for claim C9: with a concrete failing upgrade, the failure is
logged and the attempt still ends in a success verdict. -/
theorem tryConnectingSMTP_starttls_failure_nonfatal_witness :
    startTLSLogLine sessTLSFail dW true =
      some ("STARTTLS failed: tls handshake broke")
    ∧ TryConnectingSMTP cA (fun _ => true) sessTLSFail dW "user@target.example"
        "me.local" true = ({ initialResult with isValid := true }, none) :=
  ⟨(tryConnectingSMTP_starttls_failure_nonfatal cA (fun _ => true) sessTLSFail
      dW "user@target.example" "me.local" "tls handshake broke"
      (by decide) rfl rfl).1,
   (tryConnectingSMTP_starttls_failure_nonfatal cA (fun _ => true) sessTLSFail
      dW "user@target.example" "me.local" "tls handshake broke"
      (by decide) rfl rfl).2.2 rfl rfl rfl rfl rfl⟩

/-! ### Claim C1 -/

/-- Claim C1 (code bug): when the MX lookup succeeds but returns zero
records, the mail-server loop exhausts with `lastErr` still nil and
validator.go line 272 dereferences it (`lastErr.Error()`), a nil-pointer
panic — modelled as `none` — instead of the claimed
`isValid=false, hasMxRecords=true` verdict. -/
theorem validateEmail_crashes_on_empty_mx :
    ValidateEmail cA envC1 "user@example.com" = none := by decide

/-! ### Claim C8 -/

/-- Every pair returned by the mail-server loop satisfies the catch-all and
MX invariants (the loop only ever returns classifier verdicts, which carry
`hasMX = true`, or its own fall-through verdict, which also does). -/
theorem tryServersLoop_invariant (c : Client) (env : Env) (re ln : String) :
    ∀ (ms : List String) (le : Option String) (r : ValidationResult)
      (err : Option String),
      tryServersLoop c env re ln ms le = some (r, err) →
      (r.isCatchAll = true → r.isValid = true) ∧ r.hasMX = true := by
  intro ms
  induction ms with
  | nil =>
    intro le r err h
    cases le with
    | none => simp [tryServersLoop] at h
    | some e =>
      simp only [tryServersLoop, Option.some.injEq, Prod.mk.injEq] at h
      obtain ⟨hr, _⟩ := h
      subst hr
      simp
  | cons m rest ih =>
    intro le r err h
    simp only [tryServersLoop] at h
    cases hg : GetSMTPServer c env m with
    | error e2 =>
      simp only [hg] at h
      exact ih _ _ _ h
    | ok d =>
      simp only [hg] at h
      have hi1 := tryConnectingSMTP_result_invariant c env.ipIsV4
        (env.session d false) d re ln false
      rcases h1 : TryConnectingSMTP c env.ipIsV4 (env.session d false) d re
          ln false with ⟨r1, e1⟩
      rw [h1] at hi1
      cases e1 with
      | none =>
        simp only [h1, Option.some.injEq, Prod.mk.injEq] at h
        obtain ⟨hr, _⟩ := h
        subst hr
        exact ⟨hi1.2.1, hi1.1⟩
      | some e1x =>
        have hi2 := tryConnectingSMTP_result_invariant c env.ipIsV4
          (env.session d true) d re ln true
        rcases h2 : TryConnectingSMTP c env.ipIsV4 (env.session d true) d re
            ln true with ⟨r2, e2⟩
        rw [h2] at hi2
        cases e2 with
        | none =>
          simp only [h1, h2, Option.some.injEq, Prod.mk.injEq] at h
          obtain ⟨hr, _⟩ := h
          subst hr
          exact ⟨hi2.2.1, hi2.1⟩
        | some e2x =>
          simp only [h1, h2] at h
          exact ih _ _ _ h

/-- Claim C8: every verdict returned (without panic) by `ValidateEmail`
satisfies both invariants — isCatchAll implies isValid, and hasMX = false
implies isValid = false — and every result produced by a handshake attempt
(`TryConnectingSMTP`) carries hasMX = true. -/
theorem validateEmail_verdict_invariants :
    (∀ (c : Client) (env : Env) (re : String) (r : ValidationResult)
       (err : Option String),
       ValidateEmail c env re = some (r, err) →
       (r.isCatchAll = true → r.isValid = true)
       ∧ (r.hasMX = false → r.isValid = false))
    ∧ (∀ (c : Client) (ipv : String → Bool) (sess : SmtpSession)
        (d : SMTPDetails) (re ln : String) (tls : Bool),
        (TryConnectingSMTP c ipv sess d re ln tls).1.hasMX = true) := by
  constructor
  · intro c env re r err h
    rw [ValidateEmail] at h
    split_ifs at h with h1 h2
    · simp only [Option.some.injEq, Prod.mk.injEq] at h
      obtain ⟨hr, _⟩ := h
      subst hr
      simp
    · simp only [Option.some.injEq, Prod.mk.injEq] at h
      obtain ⟨hr, _⟩ := h
      subst hr
      simp
    · cases hmx : GetMailServers c env ((goSplit re '@').getD 1 "") with
      | error e =>
        simp only [hmx, Option.some.injEq, Prod.mk.injEq] at h
        obtain ⟨hr, _⟩ := h
        subst hr
        simp
      | ok ms =>
        rcases hgh : GetHostname c env with ⟨ln, eo⟩
        cases eo with
        | some e3 =>
          simp only [hmx, hgh, Option.some.injEq, Prod.mk.injEq] at h
          obtain ⟨hr, _⟩ := h
          subst hr
          simp
        | none =>
          simp only [hmx, hgh] at h
          have := tryServersLoop_invariant c env re ln ms none r err h
          exact ⟨this.1, by rw [this.2]; simp⟩
  · intro c ipv sess d re ln tls
    exact (tryConnectingSMTP_result_invariant c ipv sess d re ln tls).1

/-- Witness for claim C8: the invariants instantiated at a concrete call
returning the invalid-format verdict. -/
theorem validateEmail_verdict_invariants_witness :
    ValidateEmail cA envC1 "plainaddress" =
      some ({ isValid := false, isCatchAll := false, hasMX := false,
              errorMessage := "Invalid email format", smtpDetails := none }, none)
    ∧ (({ isValid := false, isCatchAll := false, hasMX := false,
          errorMessage := "Invalid email format",
          smtpDetails := none } : ValidationResult).isCatchAll = true →
        ({ isValid := false, isCatchAll := false, hasMX := false,
           errorMessage := "Invalid email format",
           smtpDetails := none } : ValidationResult).isValid = true)
    ∧ (({ isValid := false, isCatchAll := false, hasMX := false,
          errorMessage := "Invalid email format",
          smtpDetails := none } : ValidationResult).hasMX = false →
        ({ isValid := false, isCatchAll := false, hasMX := false,
           errorMessage := "Invalid email format",
           smtpDetails := none } : ValidationResult).isValid = false) :=
  ⟨rfl,
   (validateEmail_verdict_invariants.1 cA envC1 "plainaddress"
     { isValid := false, isCatchAll := false, hasMX := false,
       errorMessage := "Invalid email format", smtpDetails := none }
     none rfl).1,
   (validateEmail_verdict_invariants.1 cA envC1 "plainaddress"
     { isValid := false, isCatchAll := false, hasMX := false,
       errorMessage := "Invalid email format", smtpDetails := none }
     none rfl).2⟩

/-! ### Claim C3 -/

/-- A mail-exchange host that yields no verdict: either no reachable
endpoint is found, or both handshake attempts (without, then with TLS)
fail. -/
def hostFails (c : Client) (env : Env) (re ln m : String) : Prop :=
  (∃ e, GetSMTPServer c env m = Except.error e)
  ∨ (∃ d r1 e1 r2 e2, GetSMTPServer c env m = Except.ok d
      ∧ TryConnectingSMTP c env.ipIsV4 (env.session d false) d re ln false =
          (r1, some e1)
      ∧ TryConnectingSMTP c env.ipIsV4 (env.session d true) d re ln true =
          (r2, some e2))

/-- Failing hosts at the front of the server list are skipped: the loop
continues on the remaining hosts with some recorded last error. -/
theorem tryServersLoop_skip (c : Client) (env : Env) (re ln : String)
    (tail : List String) :
    ∀ (bad : List String), (∀ m ∈ bad, hostFails c env re ln m) →
    ∀ le, ∃ le2, tryServersLoop c env re ln (bad ++ tail) le =
      tryServersLoop c env re ln tail le2 := by
  intro bad
  induction bad with
  | nil => exact fun _ le => ⟨le, rfl⟩
  | cons m bs ih =>
    intro hb le
    have hm := hb m (List.mem_cons_self m bs)
    have hbs : ∀ x ∈ bs, hostFails c env re ln x :=
      fun x hx => hb x (List.mem_cons_of_mem m hx)
    rcases hm with ⟨e, he⟩ | ⟨d, r1, e1, r2, e2, hd, h1, h2⟩
    · rw [List.cons_append]
      simp only [tryServersLoop, he]
      exact ih hbs (some e)
    · rw [List.cons_append]
      simp only [tryServersLoop, hd, h1, h2]
      exact ih hbs (some e2)

/-- A host whose endpoint is located returns its first verdict immediately,
with the endpoint attached, for any incoming last error: the non-TLS attempt
is consulted first, and the TLS attempt decides only when the non-TLS
attempt failed. -/
theorem tryServersLoop_head_verdict (c : Client) (env : Env)
    (re ln good : String) (rest : List String) (d : SMTPDetails)
    (hd : GetSMTPServer c env good = Except.ok d) :
    (∀ r, TryConnectingSMTP c env.ipIsV4 (env.session d false) d re ln false =
        (r, none) →
      ∀ le, tryServersLoop c env re ln (good :: rest) le =
        some ({ r with smtpDetails := some d }, none))
    ∧ (∀ e1 r1 r,
        TryConnectingSMTP c env.ipIsV4 (env.session d false) d re ln false =
          (r1, some e1) →
        TryConnectingSMTP c env.ipIsV4 (env.session d true) d re ln true =
          (r, none) →
      ∀ le, tryServersLoop c env re ln (good :: rest) le =
        some ({ r with smtpDetails := some d }, none)) := by
  constructor
  · intro r hr le
    simp only [tryServersLoop, hd, hr]
  · intro e1 r1 r h1 h2 le
    simp only [tryServersLoop, hd, h1, h2]

/-- With a well-formed address, a successful MX lookup and a successful
hostname derivation, `ValidateEmail` is exactly the mail-server loop on the
dot-stripped MX hosts with no recorded error. -/
theorem validateEmail_reaches_loop (c : Client) (env : Env) (re ln : String)
    (mxs : List String)
    (hfmt : (goSplit re '@').length = 2)
    (hmx : env.lookupMX ((goSplit re '@').getD 1 "") = Except.ok mxs)
    (hhn : GetHostname c env = (ln, none)) :
    ValidateEmail c env re =
      tryServersLoop c env re ln
        (mxs.map (fun record => goTrimSuffix record ".")) none := by
  have hc := goContains_at_of_split re hfmt
  rw [ValidateEmail, if_neg (by simp [hc]), if_neg (by simp [hfmt])]
  simp only [GetMailServers, hmx, hhn]

/-- Claim C3: `ValidateEmail` iterates the mail-exchange hosts in
DNS-returned order; hosts that fail entirely are skipped; on the first host
with a located endpoint the non-TLS attempt runs first and, only if it
failed, the TLS attempt; the first verdict is returned immediately with the
producing endpoint attached, unaffected by the failures of earlier hosts. -/
theorem validateEmail_host_fallback (c : Client) (env : Env) (re : String)
    (bad : List String) (good : String) (rest : List String) (ln : String)
    (d : SMTPDetails) (mxs : List String)
    (hfmt : (goSplit re '@').length = 2)
    (hmx : env.lookupMX ((goSplit re '@').getD 1 "") = Except.ok mxs)
    (hlist : mxs.map (fun record => goTrimSuffix record ".") =
      bad ++ good :: rest)
    (hhn : GetHostname c env = (ln, none))
    (hbad : ∀ m ∈ bad, hostFails c env re ln m)
    (hd : GetSMTPServer c env good = Except.ok d) :
    (∀ r, TryConnectingSMTP c env.ipIsV4 (env.session d false) d re ln false =
        (r, none) →
      ValidateEmail c env re = some ({ r with smtpDetails := some d }, none))
    ∧ (∀ e1 r1 r,
        TryConnectingSMTP c env.ipIsV4 (env.session d false) d re ln false =
          (r1, some e1) →
        TryConnectingSMTP c env.ipIsV4 (env.session d true) d re ln true =
          (r, none) →
      ValidateEmail c env re =
        some ({ r with smtpDetails := some d }, none)) := by
  have hre := validateEmail_reaches_loop c env re ln mxs hfmt hmx hhn
  rw [hlist] at hre
  obtain ⟨le2, hskip⟩ :=
    tryServersLoop_skip c env re ln (good :: rest) bad hbad none
  constructor
  · intro r hr
    rw [hre, hskip]
    exact (tryServersLoop_head_verdict c env re ln good rest d hd).1 r hr le2
  · intro e1 r1 r h1 h2
    rw [hre, hskip]
    exact (tryServersLoop_head_verdict c env re ln good rest d hd).2
      e1 r1 r h1 h2 le2

/-- The IPv4 address of the reachable C3 witness host. -/
def ipC3 : IP := { str := "2.2.2.2", isV4 := true }

/-- An environment with two MX hosts: "mx1" is entirely unreachable (its IP
lookup fails) and "mx2" resolves, accepts TCP on port 587 and accepts the
recipient. -/
def envC3 : Env :=
  { lookupMX := fun _ => .ok ["mx1.", "mx2."],
    osHostname := .ok "me",
    lookupIP := fun h =>
      if h = "mx2" then .ok [ipC3]
      else if h = "me" then .ok []
      else .error "no ip",
    lookupAddr := fun _ => .error "no reverse record",
    dialTimeout := fun a _ => a == "2.2.2.2:587",
    ipIsV4 := fun _ => true,
    session := fun _ _ => okSession }

/-- Witness for claim C3: with "mx1" unreachable and "mx2" succeeding, the
verdict is the success verdict of "mx2" with its endpoint attached, and the
failure of "mx1" does not appear in it. -/
theorem validateEmail_host_fallback_witness :
    ValidateEmail cA envC3 "user@target.example" =
      some ({ isValid := true, isCatchAll := false, hasMX := true,
              errorMessage := "", smtpDetails := some dW }, none) :=
  (validateEmail_host_fallback cA envC3 "user@target.example" ["mx1"] "mx2" []
    "me.local" dW ["mx1.", "mx2."] (by decide) rfl (by decide) rfl
    (by
      intro m hm
      have hm1 : m = "mx1" := by simpa using hm
      subst hm1
      exact Or.inl ⟨"failed to lookup IP for mx1: no ip", rfl⟩)
    rfl).1
    { isValid := true, isCatchAll := false, hasMX := true,
      errorMessage := "", smtpDetails := none }
    rfl

/-! ### Claim C4 -/

/-- An environment whose MX lookup always errors. -/
def envC4 : Env := { envC1 with lookupMX := fun _ => .error "dns failure" }

/-- Counterexample for claim C4: the input "a@" has an empty domain part —
so it is not "exactly one '@' separating a non-empty local part from a
non-empty domain" — yet `ValidateEmail` does not return the invalid-format
verdict: it proceeds to the MX lookup (the outcome depends on the DNS
oracle: a failing lookup yields the no-MX verdict, a lookup returning zero
records reaches the nil-dereference panic). -/
theorem validateEmail_format_check_counterexample :
    ValidateEmail cA envC4 "a@" =
      some ({ isValid := false, isCatchAll := false, hasMX := false,
              errorMessage := "No MX records found", smtpDetails := none },
            none)
    ∧ ValidateEmail cA envC1 "a@" = none := ⟨by decide, by decide⟩

/-- Claim C4 (amended): for every input whose '@'-split does not have
exactly two fields — equivalently, not exactly one '@', with no requirement
that the fields be non-empty — `ValidateEmail` returns immediately the
invalid-format verdict with `hasMX` unset, independent of the environment
(hence no network activity). -/
theorem validateEmail_invalid_format (c : Client) (env : Env) (s : String)
    (h : (goSplit s '@').length ≠ 2) :
    ValidateEmail c env s =
      some ({ isValid := false, isCatchAll := false, hasMX := false,
              errorMessage := "Invalid email format", smtpDetails := none },
            none) := by
  rw [ValidateEmail]
  split_ifs with h1
  · rfl
  · rfl

/-- Witness for claim C4 (amended): a concrete input with no '@'. -/
theorem validateEmail_invalid_format_witness :
    ValidateEmail cA envC1 "not-an-address" =
      some ({ isValid := false, isCatchAll := false, hasMX := false,
              errorMessage := "Invalid email format", smtpDetails := none },
            none) :=
  validateEmail_invalid_format cA envC1 "not-an-address" (by decide)

/-! ### Claim C5 -/

/-- Counterexample for claim C5: when the DNS query succeeds with zero MX
records, `GetMailServers` does not fail — it returns an empty host list with
no error. -/
theorem getMailServers_zero_records_ok :
    GetMailServers cA envC1 "target.example" = Except.ok [] := rfl

/-- Claim C5 (amended): `GetMailServers` fails exactly when the DNS query
errors (wrapping the error); consequently, for every recipient whose domain
MX lookup errors, `ValidateEmail` returns `hasMX=false, isValid=false`
regardless of the local part.  A successful query with zero records is not
an error (see the counterexample) and instead reaches the empty-server-list
panic of claim C1. -/
theorem getMailServers_error_propagation (c : Client) (env : Env)
    (domain e re : String)
    (hmx : env.lookupMX domain = Except.error e)
    (hre : (goSplit re '@').length = 2)
    (hdom : (goSplit re '@').getD 1 "" = domain) :
    GetMailServers c env domain =
      Except.error ("error looking up MX records: " ++ e)
    ∧ ValidateEmail c env re =
      some ({ isValid := false, isCatchAll := false, hasMX := false,
              errorMessage := "No MX records found", smtpDetails := none },
            none) := by
  have hc := goContains_at_of_split re hre
  constructor
  · simp [GetMailServers, hmx]
  · rw [ValidateEmail, if_neg (by simp [hc]), if_neg (by simp [hre])]
    simp only [hdom, GetMailServers, hmx]

/-- An environment whose MX lookup fails with "no such host". -/
def envC5 : Env := { envC1 with lookupMX := fun _ => .error "no such host" }

/-- Witness for claim C5 (amended): concrete failing lookup. -/
theorem getMailServers_error_propagation_witness :
    GetMailServers cA envC5 "target.example" =
      Except.error "error looking up MX records: no such host"
    ∧ ValidateEmail cA envC5 "user@target.example" =
      some ({ isValid := false, isCatchAll := false, hasMX := false,
              errorMessage := "No MX records found", smtpDetails := none },
            none) :=
  getMailServers_error_propagation cA envC5 "target.example" "no such host"
    "user@target.example" rfl (by decide) (by decide)

/-! ### Claim C6 -/

/-- An environment in which reading the OS hostname fails while everything
else — DNS, reachability, the SMTP conversation — would succeed. -/
def envC6 : Env :=
  { lookupMX := fun _ => .ok ["mx."],
    osHostname := .error "boom",
    lookupIP := fun _ => .ok [ipC3],
    lookupAddr := fun _ => .ok ["probe.example."],
    dialTimeout := fun _ _ => true,
    ipIsV4 := fun _ => true,
    session := fun _ _ => okSession }

/-- Counterexample for claim C6: when reading the machine hostname fails,
`GetHostname` does produce the fixed placeholder, but `ValidateEmail`
discards it and returns immediately with the hostname error as the final
verdict — validation does not continue to the greeting step even though
every later step would have succeeded. -/
theorem validateEmail_hostname_error_is_final :
    ValidateEmail cA envC6 "user@target.example" =
      some ({ isValid := false, isCatchAll := false, hasMX := true,
              errorMessage := "failed to get hostname: boom",
              smtpDetails := none }, none)
    ∧ GetHostname cA envC6 =
      ("verifier.local", some "failed to get hostname: boom") :=
  ⟨by decide, by decide⟩

/-- Claim C6 (amended): when reading the machine hostname fails,
`GetHostname` returns the fixed placeholder "verifier.local" together with
the error, and `ValidateEmail` treats that error as fatal: it returns
immediately a verdict with isValid=false, hasMX=true and the hostname error
as message — the placeholder is never used for the greeting. -/
theorem getHostname_fallback_aborts_validation (c : Client) (env : Env)
    (re msg : String) (mxs : List String)
    (hos : env.osHostname = Except.error msg)
    (hre : (goSplit re '@').length = 2)
    (hmx : env.lookupMX ((goSplit re '@').getD 1 "") = Except.ok mxs) :
    GetHostname c env =
      ("verifier.local", some ("failed to get hostname: " ++ msg))
    ∧ ValidateEmail c env re =
      some ({ isValid := false, isCatchAll := false, hasMX := true,
              errorMessage := "failed to get hostname: " ++ msg,
              smtpDetails := none }, none) := by
  have hgh : GetHostname c env =
      ("verifier.local", some ("failed to get hostname: " ++ msg)) := by
    simp [GetHostname, hos]
  refine ⟨hgh, ?_⟩
  have hc := goContains_at_of_split re hre
  rw [ValidateEmail, if_neg (by simp [hc]), if_neg (by simp [hre])]
  simp only [GetMailServers, hmx, hgh]

/-- Witness for claim C6 (amended): concrete failing hostname read. -/
theorem getHostname_fallback_aborts_validation_witness :
    GetHostname cA envC6 =
      ("verifier.local", some "failed to get hostname: boom")
    ∧ ValidateEmail cA envC6 "someone@elsewhere.example" =
      some ({ isValid := false, isCatchAll := false, hasMX := true,
              errorMessage := "failed to get hostname: boom",
              smtpDetails := none }, none) :=
  getHostname_fallback_aborts_validation cA envC6 "someone@elsewhere.example"
    "boom" ["mx."] rfl (by decide) rfl

/-! ### Claim C7 -/

/-- If no port of an address connects, the port loop finds nothing. -/
theorem tryPortsForIP_eq_none (env : Env) (m : String) (ip : IP) :
    ∀ l, (∀ p ∈ l,
        env.dialTimeout (ipPortAddress ip p) smtpTimeoutSeconds = false) →
      tryPortsForIP env m ip l = none := by
  intro l
  induction l with
  | nil => intro _; rfl
  | cons p ps ih =>
    intro h
    rw [tryPortsForIP, if_neg (by simp [h p (List.mem_cons_self p ps)])]
    exact ih (fun q hq => h q (List.mem_cons_of_mem p hq))

/-- The first connecting port in the list wins. -/
theorem tryPortsForIP_first (env : Env) (m : String) (ip : IP) (p : String)
    (ps : List String) :
    ∀ pp, (∀ q ∈ pp,
        env.dialTimeout (ipPortAddress ip q) smtpTimeoutSeconds = false) →
      env.dialTimeout (ipPortAddress ip p) smtpTimeoutSeconds = true →
      tryPortsForIP env m ip (pp ++ p :: ps) =
        some { server := m, port := p, protocol := "SMTP", usedTLS := false,
               ipAddress := ip.str } := by
  intro pp
  induction pp with
  | nil =>
    intro _ hp
    rw [List.nil_append, tryPortsForIP, if_pos hp]
  | cons q qs ih =>
    intro h hp
    rw [List.cons_append, tryPortsForIP,
      if_neg (by simp [h q (List.mem_cons_self q qs)])]
    exact ih (fun x hx => h x (List.mem_cons_of_mem q hx)) hp

/-- If no address connects on any port, the address loop finds nothing. -/
theorem tryEachIP_eq_none (env : Env) (m : String) :
    ∀ l, (∀ ip ∈ l, ∀ p ∈ smtpPorts,
        env.dialTimeout (ipPortAddress ip p) smtpTimeoutSeconds = false) →
      tryEachIP env m l = none := by
  intro l
  induction l with
  | nil => intro _; rfl
  | cons ip ips ih =>
    intro h
    simp only [tryEachIP,
      tryPortsForIP_eq_none env m ip smtpPorts (h ip (List.mem_cons_self ip ips))]
    exact ih (fun x hx => h x (List.mem_cons_of_mem ip hx))

/-- Addresses on which every port fails are skipped in order. -/
theorem tryEachIP_skip (env : Env) (m : String) :
    ∀ pre, (∀ ip ∈ pre, ∀ p ∈ smtpPorts,
        env.dialTimeout (ipPortAddress ip p) smtpTimeoutSeconds = false) →
      ∀ l, tryEachIP env m (pre ++ l) = tryEachIP env m l := by
  intro pre
  induction pre with
  | nil => intro _ l; rfl
  | cons ip ips ih =>
    intro h l
    rw [List.cons_append]
    simp only [tryEachIP,
      tryPortsForIP_eq_none env m ip smtpPorts (h ip (List.mem_cons_self ip ips))]
    exact ih (fun x hx => h x (List.mem_cons_of_mem ip hx)) l

/-- The port loop consults the dialler only at the 5-second timeout. -/
theorem tryPortsForIP_congr (env env2 : Env) (m : String) (ip : IP)
    (hdial : ∀ a, env2.dialTimeout a 5 = env.dialTimeout a 5) :
    ∀ l, tryPortsForIP env2 m ip l = tryPortsForIP env m ip l := by
  intro l
  induction l with
  | nil => rfl
  | cons p ps ih =>
    simp only [tryPortsForIP, smtpTimeoutSeconds, hdial, ih]

/-- The address loop consults the dialler only at the 5-second timeout. -/
theorem tryEachIP_congr (env env2 : Env) (m : String)
    (hdial : ∀ a, env2.dialTimeout a 5 = env.dialTimeout a 5) :
    ∀ l, tryEachIP env2 m l = tryEachIP env m l := by
  intro l
  induction l with
  | nil => rfl
  | cons ip ips ih =>
    simp only [tryEachIP, tryPortsForIP_congr env env2 m ip hdial smtpPorts, ih]

/-- Claim C7: `GetSMTPServer` propagates IP-lookup failure; enumerates the
resolved addresses in resolver order, trying ports 587, 25, 465 in that
fixed order for each; returns the first connecting {address, port} pair (as
an `SMTPDetails` holding only strings — no connection handle escapes);
fails with the unreachable error when nothing connects; and consults the
dialler only with the fixed 5-second timeout. -/
theorem getSMTPServer_port_selection (c : Client) (env : Env) (m : String) :
    (∀ e, env.lookupIP m = Except.error e →
       GetSMTPServer c env m =
         Except.error ("failed to lookup IP for " ++ m ++ ": " ++ e))
    ∧ (∀ ips, env.lookupIP m = Except.ok ips →
        ((∀ ip ∈ ips, ∀ p ∈ smtpPorts,
            env.dialTimeout (ipPortAddress ip p) smtpTimeoutSeconds = false) →
          GetSMTPServer c env m =
            Except.error ("no available SMTP servers found for " ++ m))
        ∧ (∀ pre ip post, ips = pre ++ ip :: post →
            (∀ ip2 ∈ pre, ∀ p ∈ smtpPorts,
              env.dialTimeout (ipPortAddress ip2 p) smtpTimeoutSeconds = false) →
            ∀ pp p ps, smtpPorts = pp ++ p :: ps →
            (∀ q ∈ pp,
              env.dialTimeout (ipPortAddress ip q) smtpTimeoutSeconds = false) →
            env.dialTimeout (ipPortAddress ip p) smtpTimeoutSeconds = true →
            GetSMTPServer c env m = Except.ok
              { server := m, port := p, protocol := "SMTP", usedTLS := false,
                ipAddress := ip.str })
        ∧ (∀ env2 : Env, env2.lookupIP m = env.lookupIP m →
            (∀ a, env2.dialTimeout a 5 = env.dialTimeout a 5) →
            GetSMTPServer c env2 m = GetSMTPServer c env m))
    ∧ smtpTimeoutSeconds = 5
    ∧ smtpPorts = ["587", "25", "465"] := by
  refine ⟨?_, ?_, rfl, rfl⟩
  · intro e he
    simp [GetSMTPServer, he]
  · intro ips hips
    refine ⟨?_, ?_, ?_⟩
    · intro hall
      simp only [GetSMTPServer, hips, tryEachIP_eq_none env m ips hall]
    · intro pre ip post hsplit hpre pp p ps hports hpp hp
      subst hsplit
      have h1 : tryEachIP env m (pre ++ ip :: post) =
          tryEachIP env m (ip :: post) :=
        tryEachIP_skip env m pre hpre (ip :: post)
      have h2 : tryPortsForIP env m ip smtpPorts =
          some { server := m, port := p, protocol := "SMTP", usedTLS := false,
                 ipAddress := ip.str } := by
        rw [hports]
        exact tryPortsForIP_first env m ip p ps pp hpp hp
      simp only [GetSMTPServer, hips, h1, tryEachIP, h2]
    · intro env2 hlook hdial
      simp only [GetSMTPServer, hlook, hips,
        tryEachIP_congr env env2 m hdial ips]

/-- The single resolved address of the C7 witness host. -/
def ipC7 : IP := { str := "1.1.1.1", isV4 := true }

/-- An environment where only port 25 of 1.1.1.1 accepts a 5-second dial. -/
def envC7 : Env :=
  { envC1 with
    lookupIP := fun _ => .ok [ipC7],
    dialTimeout := fun a t => a == "1.1.1.1:25" && t == 5 }

/-- Witness for claim C7: 587 is tried first and fails, so the winning pair
is {1.1.1.1, 25}. -/
theorem getSMTPServer_port_selection_witness :
    GetSMTPServer cA envC7 "mx.target.example" =
      Except.ok { server := "mx.target.example", port := "25",
                  protocol := "SMTP", usedTLS := false,
                  ipAddress := "1.1.1.1" } :=
  ((getSMTPServer_port_selection cA envC7 "mx.target.example").2.1 [ipC7]
      rfl).2.1
    [] ipC7 [] rfl (by simp) ["587"] "25" ["465"] rfl
    (by
      intro q hq
      have hq1 : q = "587" := by simpa using hq
      subst hq1
      decide)
    (by decide)

end Mailify
